import Mathlib

/-!
Verification of the Veeam-ML backup/mount/ML backend against its
natural-language specification.

The definitions below are a shallow embedding of the Python sources:

* `src/routes/veeam_routes.py` — the web layer's OS-type heuristic and the
  mount endpoint's dispatch between the two mount mechanisms;
* `src/services/veeam_api.py` — the `VeeamDataIntegrationAPI` client:
  authentication, FLR-session creation, mount-session bookkeeping,
  unmounting with cross-mechanism fallback, and state reconciliation;
* `src/services/ml_processor.py` — the ML task dispatcher.

Modelling conventions:

* Python dicts coming from JSON are embedded as structures; a field read
  with `dict.get(key)` becomes `Option`, and a field read with a default
  (`dict.get(key, d)`) keeps the default semantics in the Lean definition.
* The remote HTTP world is an `Oracle` of response values; a Python call
  that raises `requests` exceptions is a constructor of the oracle's
  result type, and Python `raise`/`try`/`except` becomes `Except` with
  explicit catching.
* The client's `self.mount_sessions` dictionary is threaded explicitly as
  an association list `MountDict` with Python-dict semantics (insert
  overwrites in place, new keys append at the end, delete removes).
* Timestamps (`datetime.utcnow()`) are not modelled: no claim depends on
  them, and they are not functions of the inputs.
-/

/-- Python truthiness of an optional string: `None` and `''` are falsy. -/
def pyTruthy : Option String → Bool
  | none => false
  | some s => !(s == "")

/-- Python `a or b` on optional strings: `b` when `a` is `None` or `''`. -/
def pyStrOr (a b : Option String) : Option String :=
  if pyTruthy a then a else b

/-- Python's substring test `pat in s`, over the character lists. -/
def strContains (s pat : String) : Bool :=
  (List.range (s.data.length + 1)).any (fun i => pat.data.isPrefixOf (s.data.drop i))

/-- Python `str.lower()` (ASCII; the strings involved are ASCII), stated
over the character list so that the kernel can evaluate it. -/
def pyLower (s : String) : String := ⟨s.data.map Char.toLower⟩

/-!
## `identify_os_type` — src/routes/veeam_routes.py lines 59-105

A restore point is a JSON dict; the four fields are read with
`.get(key, '')`, so an absent key is the empty string.
-/

structure RestorePointInfo where
  name : String
  platform : String
  vmName : String
  backup_object_name : String
deriving DecidableEq, Repr

def windows_indicators : List String :=
  ["windows", "win", "server", "desktop", "nt", "vbr", "target"]

def linux_indicators : List String :=
  ["linux", "ubuntu", "centos", "rhel", "debian", "suse", "redhat"]

/-- The concatenated text `f"{name} {vm_name} {backup_object_name}"` built
from the already-lowercased fields (the code lowercases each field on read
and lowercases the concatenation again). -/
def allText (rp : RestorePointInfo) : String :=
  pyLower (pyLower rp.name ++ " " ++ pyLower rp.vmName ++ " " ++ pyLower rp.backup_object_name)

def hasWindowsIndicator (s : String) : Bool :=
  windows_indicators.any (fun i => strContains s i)

def hasLinuxIndicator (s : String) : Bool :=
  linux_indicators.any (fun i => strContains s i)

/-- `identify_os_type(restore_point)`: the in-order fall-through of the
Python function (each loop returns on its first match, which for the
result value is the same as `any`). -/
def identify_os_type (rp : RestorePointInfo) : String :=
  let platform := pyLower rp.platform
  let all_text := allText rp
  if hasWindowsIndicator all_text then "windows"
  else if hasLinuxIndicator all_text then "linux"
  else if strContains platform "windows" then "windows"
  else if strContains platform "linux" then "linux"
  else if ["win-", "server-", "desktop-", "target"].any (fun p => strContains all_text p) then
    "windows"
  else "unknown"

/-!
## `MLProcessingService.process_ml_task` — src/services/ml_processor.py lines 617-687

Only the task-type dispatch is claim-relevant.  The actual numeric work of
each processor (pandas/scikit-learn calls) is abstracted as an oracle
`procs : String → Except String TaskOutcome` giving, per task type, either
the processor's result or the message of an exception it raises; the
dispatcher's own checks (`task_type not in self.processors`, the
target-column checks) and its catch-all wrapper are translated exactly.
-/

/-- One constructor per way `process_ml_task` raises `MLProcessingError`.
`unsupported` is the raise at line 645, outside the `try`; everything
raised inside the `try` is re-wrapped by the catch-all at line 685-687
into the `ML processing failed: ...` message, modelled by
`processingFailed`. -/
inductive MLError
  | unsupported (task_type : String)
  | processingFailed (msg : String)
deriving DecidableEq, Repr

/-- An abstract result of one processor run. -/
structure TaskOutcome where
  tag : String
deriving DecidableEq, Repr

/-- The keys of the `self.processors` dictionary built in `__init__`. -/
def supportedTaskTypes : List String :=
  ["classification", "regression", "clustering", "anomaly_detection", "feature_extraction"]

/-- The body of the `try` block: branch on the task type, check the
target column where required, then run the processor (oracle).  A raised
message is returned as `.error`. -/
def mlTaskBody (procs : String → Except String TaskOutcome)
    (task_type : String) (target_column : Option String) : Except String TaskOutcome :=
  if task_type == "classification" then
    match target_column with
    | none => .error "Target column required for classification"
    | some _ => procs task_type
  else if task_type == "regression" then
    match target_column with
    | none => .error "Target column required for regression"
    | some _ => procs task_type
  else
    procs task_type

def process_ml_task (procs : String → Except String TaskOutcome)
    (task_type : String) (target_column : Option String) : Except MLError TaskOutcome :=
  if ¬ task_type ∈ supportedTaskTypes then
    .error (.unsupported task_type)
  else
    match mlTaskBody procs task_type target_column with
    | .ok r => .ok r
    | .error e => .error (.processingFailed ("ML processing failed: " ++ e))

/-!
## `VeeamDataIntegrationAPI` — src/services/veeam_api.py

Data model.  JSON payloads are structures; fields the code reads with
plain `dict.get(key)` are `Option` (a `none` stands for an absent key; an
explicit JSON `null` behaves the same under `.get`).  Session ids coming
back from the server are kept as plain strings.
-/

/-- Outcome of one HTTP call: a response with a status code and parsed
body, or a raised `requests.exceptions.RequestException`. -/
inductive HttpResult (α : Type)
  | ok (status : Nat) (body : α)
  | reqError (msg : String)
deriving DecidableEq, Repr

/-- `sourceProperties` object of a FLR-session response. -/
structure SourceProperties where
  machineName : Option String
deriving DecidableEq, Repr

/-- Body of a response from `POST /api/v1/restore/flr`.  The code reads
`sessionId`, `id` and `sourceProperties.machineName` from it. -/
structure FlrSessionResponse where
  sessionId : Option String
  id : Option String
  sourceProperties : Option SourceProperties
deriving DecidableEq, Repr

/-- A raw session object in the `data` list of `GET /api/v1/sessions`. -/
structure ServerSession where
  id : String
  type : Option String
  state : Option String
  creationTime : Option String
  backupId : Option String
  restorePointId : Option String
deriving DecidableEq, Repr

/-- The dict `get_active_sessions` builds per server session
(lines 967-994), plus the readiness keys added at lines 996-1015. -/
structure SessionInfo where
  id : String
  type : Option String
  state : Option String
  creationTime : Option String
  backupId : Option String
  restorePointId : Option String
  mount_type : String
  mount_point : String
  is_ready : Bool
  rest_api_ready : Option Bool
  unc_path_ready : Option Bool
deriving DecidableEq, Repr

/-- The heterogeneous `'session_info'` value stored in a tracking entry:
either a formatted server-session dict (`mount_backup`'s existing-session
branch) or a raw FLR response (the FLR-creating paths). -/
inductive SessionBlob
  | fromServer (s : SessionInfo)
  | fromFlr (r : FlrSessionResponse)
deriving DecidableEq, Repr

/-- One value of the `self.mount_sessions` tracking dictionary.  Keys a
given writer does not set are `none` (`'mounted_at'`, a wall-clock
timestamp, is not modelled).  `restore_point_id` conflates an absent key
with a stored `None`; no reader distinguishes them. -/
structure MountInfo where
  backup_id : Option String
  restore_point_id : Option String
  mount_point : String
  folder_name : Option String
  state : Option String
  mount_type : String
  session_info : Option SessionBlob
deriving DecidableEq, Repr

/-- `self.mount_sessions` as an association list with Python-dict
semantics: updates overwrite in place, new keys append at the end. -/
abbrev MountDict : Type := List (String × MountInfo)

def dictContains (d : MountDict) (k : String) : Bool :=
  d.any (fun p => p.1 == k)

def dictLookup (d : MountDict) (k : String) : Option MountInfo :=
  (d.find? (fun p => p.1 == k)).map (·.2)

def dictInsert (d : MountDict) (k : String) (v : MountInfo) : MountDict :=
  if dictContains d k then
    d.map (fun p => if p.1 == k then (k, v) else p)
  else
    d ++ [(k, v)]

def dictErase (d : MountDict) (k : String) : MountDict :=
  d.filter (fun p => p.1 != k)

def dictKeys (d : MountDict) : List String :=
  d.map (·.1)

/-- Result of fetching the server's session lists in
`get_active_sessions` (lines 942-961).  `reqError` is a raised
`requests.exceptions.RequestException` — the only exception class the
function catches; `otherError` is any other exception raised while
fetching or decoding (e.g. a JSON `ValueError` on requests versions where
it is not a `RequestException`), which propagates to the caller. -/
inductive FetchResult
  | ok (flr di : List ServerSession)
  | reqError (msg : String)
  | otherError (msg : String)
deriving DecidableEq, Repr

/-- A restore point as consumed by `mount_backup` (line 288 reads `id`
with `.get`). -/
structure RestorePoint where
  id : Option String
deriving DecidableEq, Repr

/-- The remote server, fixed for the duration of one request: the
response each endpoint would give.  `flrReady` is the per-session answer
of `_check_flr_session_ready`. -/
structure Oracle where
  sessionsFetch : FetchResult
  flrReady : String → Bool
  restorePoints : HttpResult (List RestorePoint)
  flrCreate : HttpResult FlrSessionResponse
  flrUnmountOk : Bool
  diUnpublishOk : Bool

/-- Trace events: which client methods the route invokes and which remote
endpoints the client touches. -/
inductive CallEvent
  | callMountWindowsBackupFlr
  | callMountBackupDI
  | epSessions
  | epRestorePoints
  | epFlrCreate
  | epFlrUnmount
  | epDiUnpublish
deriving DecidableEq, Repr

/-- Result of a client method: the tracking dictionary after the call,
the returned value or the message of the raised `VeeamAPIError`, and the
trace of endpoint calls. -/
structure MRes (α : Type) where
  state : MountDict
  result : Except String α
  trace : List CallEvent

namespace VeeamAPI

/-- Lines 967-979: formatting of one FLR-filtered server session. -/
def formatFlrSession (s : ServerSession) : SessionInfo :=
  { id := s.id, type := s.type, state := s.state, creationTime := s.creationTime,
    backupId := s.backupId, restorePointId := s.restorePointId,
    mount_type := "FLR",
    mount_point := "\\\\172.21.234.6\\VeeamFLR\\" ++ s.id,
    is_ready := false, rest_api_ready := none, unc_path_ready := none }

/-- Lines 981-994: formatting of one Data-Integration-filtered session. -/
def formatDiSession (s : ServerSession) : SessionInfo :=
  { id := s.id, type := s.type, state := s.state, creationTime := s.creationTime,
    backupId := s.backupId, restorePointId := s.restorePointId,
    mount_type := "DataIntegration",
    mount_point := "iSCSI session " ++ s.id,
    is_ready := false, rest_api_ready := none, unc_path_ready := none }

/-- Lines 996-1015: the readiness pass.  For a `Working` FLR session the
code computes `rest_api_ready or unc_path_ready` with `unc_path_ready`
hard-coded `True`. -/
def applyReadiness (ready : String → Bool) (s : SessionInfo) : SessionInfo :=
  if s.mount_type == "FLR" && s.state == some "Working" then
    let rest_api_ready := ready s.id
    { s with is_ready := rest_api_ready || true,
             rest_api_ready := some rest_api_ready,
             unc_path_ready := some true }
  else if s.state == some "Working" then
    { s with is_ready := true }
  else
    { s with is_ready := false }

/-- `get_active_sessions` (lines 935-1022).  A `RequestException` while
fetching is caught and yields `[]`; any other exception propagates
(`.error`). -/
def get_active_sessions (ready : String → Bool) : FetchResult → Except String (List SessionInfo)
  | .reqError _ => .ok []
  | .otherError m => .error m
  | .ok flr di =>
      .ok ((flr.map formatFlrSession ++ di.map formatDiSession).map (applyReadiness ready))

/-- `get_restore_points` (lines 177-219): `raise_for_status` plus JSON
unwrapping; the oracle supplies the parsed restore-point list, and any
`RequestException` (including an HTTP error status) is re-raised as
`VeeamAPIError`. -/
def get_restore_points (o : Oracle) : Except String (List RestorePoint) :=
  match o.restorePoints with
  | .reqError m => .error ("Failed to retrieve restore points: " ++ m)
  | .ok status body =>
      if 400 ≤ status ∧ status < 600 then
        .error ("Failed to retrieve restore points: HTTP " ++ toString status)
      else
        .ok body

/-- `machine_name = flr_session.get('sourceProperties', {}).get('machineName', 'unknown')`. -/
def machineNameOf (r : FlrSessionResponse) : String :=
  match r.sourceProperties with
  | none => "unknown"
  | some sp => sp.machineName.getD "unknown"

/-- `folder_name = f"{machine_name}_{abbreviated_id}"` with
`abbreviated_id = session_id[:8]`. -/
def folderNameOf (machine_name sid : String) : String :=
  machine_name ++ "_" ++ sid.take 8

/-- `f"\\\\172.21.234.6\\VeeamFLR\\{folder_name}"`. -/
def uncPathOf (folder_name : String) : String :=
  "\\\\172.21.234.6\\VeeamFLR\\" ++ folder_name

/-- The tracking entry written by `mount_windows_backup_flr`
(lines 805-812) and `create_flr_session_for_restore_point`
(lines 1438-1445): `'backup_id'` holds the restore-point id, there is no
`'restore_point_id'` key. -/
def flrMountInfo (restore_point_id : String) (body : FlrSessionResponse) (sid : String) :
    MountInfo :=
  { backup_id := some restore_point_id,
    restore_point_id := none,
    mount_point := uncPathOf (folderNameOf (machineNameOf body) sid),
    folder_name := some (folderNameOf (machineNameOf body) sid),
    state := none,
    mount_type := "FLR",
    session_info := some (.fromFlr body) }

/-- `create_flr_session_for_restore_point` (lines 1386-1456): POST the
FLR request; on status 201 record the session when the body carries a
(truthy) session id and return the body, otherwise raise. -/
def create_flr_session_for_restore_point (st : MountDict) (o : Oracle)
    (restore_point_id : String) : MRes FlrSessionResponse :=
  match o.flrCreate with
  | .reqError m =>
      ⟨st, .error ("Failed to create FLR session: " ++ m), [.epFlrCreate]⟩
  | .ok status body =>
      if status == 201 then
        match pyStrOr body.sessionId body.id with
        | some sid =>
            if sid == "" then ⟨st, .ok body, [.epFlrCreate]⟩
            else ⟨dictInsert st sid (flrMountInfo restore_point_id body sid),
                  .ok body, [.epFlrCreate]⟩
        | none => ⟨st, .ok body, [.epFlrCreate]⟩
      else
        .mk st (.error ("FLR creation failed with status " ++ toString status)) [.epFlrCreate]

/-- `mount_windows_backup_flr` (lines 759-819): POST the FLR request,
`raise_for_status`, record the session when the body carries a (truthy)
session id, and return the raw body either way.  A `RequestException`
(including an error status) is re-raised as `VeeamAPIError`. -/
def mount_windows_backup_flr (st : MountDict) (o : Oracle)
    (restore_point_id : String) : MRes FlrSessionResponse :=
  match o.flrCreate with
  | .reqError m =>
      ⟨st, .error ("Failed to create Windows FLR session: " ++ m), [.epFlrCreate]⟩
  | .ok status body =>
      if 400 ≤ status ∧ status < 600 then
        .mk st (.error ("Failed to create Windows FLR session: HTTP " ++ toString status))
          [.epFlrCreate]
      else
        match pyStrOr body.sessionId body.id with
        | some sid =>
            if sid == "" then ⟨st, .ok body, [.epFlrCreate]⟩
            else ⟨dictInsert st sid (flrMountInfo restore_point_id body sid),
                  .ok body, [.epFlrCreate]⟩
        | none => ⟨st, .ok body, [.epFlrCreate]⟩

/-- The returned dict of `VeeamDataIntegrationAPI.mount_backup`
(lines 270-276 / 318-324).  Note it has a `'session_id'` key but no
`'id'` key. -/
structure DIMountResult where
  session_id : String
  mount_point : String
  mount_type : String
  status : String
  session_info : SessionBlob
deriving DecidableEq, Repr

/-- Line 239-245: the scan of the active sessions for an existing
working FLR session of this backup (`find?` returns the first match,
like the Python loop's `break`). -/
def findExistingFlr (sessions : List SessionInfo) (backup_id : String) :
    Option SessionInfo :=
  sessions.find? (fun s =>
    s.backupId == some backup_id && s.mount_type == "FLR" && s.state == some "Working")

/-- The tracking entry of `mount_backup`'s existing-session branch
(lines 259-267).  `flr_session` there is a dict built by
`get_active_sessions`, which never has a `'sourceProperties'` key, so
`machine_name` is always `'unknown'`. -/
def diExistingMountInfo (backup_id : String) (es : SessionInfo) : MountInfo :=
  { backup_id := some backup_id,
    restore_point_id := es.restorePointId,
    mount_point := uncPathOf (folderNameOf "unknown" es.id),
    folder_name := some (folderNameOf "unknown" es.id),
    state := none,
    mount_type := "FLR",
    session_info := some (.fromServer es) }

/-- The tracking entry of `mount_backup`'s new-session branch
(lines 307-315); it overwrites the entry `create_flr_session_for_restore_point`
already stored for the same id, adding a `'restore_point_id'` key. -/
def diNewMountInfo (backup_id restore_point_id : String) (body : FlrSessionResponse)
    (sid : String) : MountInfo :=
  { backup_id := some backup_id,
    restore_point_id := some restore_point_id,
    mount_point := uncPathOf (folderNameOf (machineNameOf body) sid),
    folder_name := some (folderNameOf (machineNameOf body) sid),
    state := none,
    mount_type := "FLR",
    session_info := some (.fromFlr body) }

/-- The body of `mount_backup`'s `try` block (lines 234-326), before the
catch-all at lines 328-330. -/
def mount_backup_body (st : MountDict) (o : Oracle) (backup_id : String) :
    MRes DIMountResult :=
  match get_active_sessions o.flrReady o.sessionsFetch with
  | .error e => ⟨st, .error e, [.epSessions]⟩
  | .ok active_sessions =>
    match findExistingFlr active_sessions backup_id with
    | some es =>
        ⟨dictInsert st es.id (diExistingMountInfo backup_id es),
         .ok { session_id := es.id,
               mount_point := uncPathOf (folderNameOf "unknown" es.id),
               mount_type := "FLR", status := "mounted",
               session_info := .fromServer es },
         [.epSessions]⟩
    | none =>
      match get_restore_points o with
      | .error e => ⟨st, .error e, [.epSessions, .epRestorePoints]⟩
      | .ok restore_points =>
        match restore_points.head? with
        | none =>
            ⟨st, .error ("No restore points found for backup " ++ backup_id),
             [.epSessions, .epRestorePoints]⟩
        | some latest =>
          match pyTruthy latest.id, latest.id with
          | true, some restore_point_id =>
            let created := create_flr_session_for_restore_point st o restore_point_id
            match created.result with
            | .error e =>
                ⟨created.state, .error e, [.epSessions, .epRestorePoints] ++ created.trace⟩
            | .ok body =>
              match pyStrOr body.sessionId body.id with
              | some sid =>
                  if sid == "" then
                    ⟨created.state,
                     .error "Failed to create FLR session - no session ID returned",
                     [.epSessions, .epRestorePoints] ++ created.trace⟩
                  else
                    ⟨dictInsert created.state sid (diNewMountInfo backup_id restore_point_id body sid),
                     .ok { session_id := sid,
                           mount_point := uncPathOf (folderNameOf (machineNameOf body) sid),
                           mount_type := "FLR", status := "mounted",
                           session_info := .fromFlr body },
                     [.epSessions, .epRestorePoints] ++ created.trace⟩
              | none =>
                  ⟨created.state,
                   .error "Failed to create FLR session - no session ID returned",
                   [.epSessions, .epRestorePoints] ++ created.trace⟩
          | _, _ =>
              ⟨st, .error ("No valid restore point ID found for backup " ++ backup_id),
               [.epSessions, .epRestorePoints]⟩

/-- `VeeamDataIntegrationAPI.mount_backup` (lines 221-330): the body with
every raised exception re-wrapped by lines 328-330 into
`Failed to mount backup: ...`. -/
def mount_backup (st : MountDict) (o : Oracle) (backup_id : String) :
    MRes DIMountResult :=
  let r := mount_backup_body st o backup_id
  match r.result with
  | .ok v => ⟨r.state, .ok v, r.trace⟩
  | .error e => ⟨r.state, .error ("Failed to mount backup: " ++ e), r.trace⟩

/-- Result of `unmount_backup`: the Python function returns a plain bool
and never raises (its `try` has a catch-all returning `False`). -/
structure BoolRes where
  state : MountDict
  success : Bool
  trace : List CallEvent
deriving Repr

/-- `unmount_backup` (lines 866-901).  For an untracked id it tries the
FLR unmount endpoint and falls through to the Data Integration unmount
endpoint via Python's short-circuiting `or` (line 881); for a tracked id
it picks the endpoint from the entry's `'mount_type'` (read with default
`'FLR'`, but every writer sets the key) and deletes the entry on
success. -/
def unmount_backup (st : MountDict) (o : Oracle) (session_id : String) : BoolRes :=
  match dictLookup st session_id with
  | none =>
      if o.flrUnmountOk then ⟨st, true, [.epFlrUnmount]⟩
      else ⟨st, o.diUnpublishOk, [.epFlrUnmount, .epDiUnpublish]⟩
  | some mount_info =>
      if mount_info.mount_type == "FLR" then
        if o.flrUnmountOk then ⟨dictErase st session_id, true, [.epFlrUnmount]⟩
        else ⟨st, false, [.epFlrUnmount]⟩
      else
        if o.diUnpublishOk then ⟨dictErase st session_id, true, [.epDiUnpublish]⟩
        else ⟨st, false, [.epDiUnpublish]⟩

/-- `reconcile_mount_state`'s returned dict (lines 1199-1204), or the
`{'error': str(e)}` dict of the catch-all (line 1211). -/
inductive ReconcileResult
  | ok (total_active_sessions local_sessions orphaned_removed sessions_updated : Nat)
  | err (msg : String)
deriving DecidableEq, Repr

/-- Lines 1183-1187: `update` of an already-tracked session with the
server's `state`, `mount_point` and `mount_type`. -/
def updateFromServer (info : MountInfo) (s : SessionInfo) : MountInfo :=
  { info with state := s.state, mount_point := s.mount_point, mount_type := s.mount_type }

/-- Lines 1190-1197: the entry added for a server session that is not in
local tracking. -/
def newFromServer (s : SessionInfo) : MountInfo :=
  { backup_id := s.backupId,
    restore_point_id := s.restorePointId,
    mount_point := s.mount_point,
    folder_name := none,
    state := s.state,
    mount_type := s.mount_type,
    session_info := none }

/-- One iteration of the update loop (lines 1179-1197). -/
def reconcileStep (acc : MountDict) (s : SessionInfo) : MountDict :=
  if dictContains acc s.id then
    acc.map (fun p => if p.1 == s.id then (p.1, updateFromServer p.2 s) else p)
  else
    acc ++ [(s.id, newFromServer s)]

/-- `reconcile_mount_state` (lines 1157-1211): drop local sessions whose
id is not on the server, update or add an entry per server session, and
report the counts; any exception is caught and turned into the error
dict. -/
def reconcile_mount_state (st : MountDict) (o : Oracle) : MountDict × ReconcileResult :=
  match get_active_sessions o.flrReady o.sessionsFetch with
  | .error e => (st, .err e)
  | .ok active_sessions =>
      let active_session_ids := active_sessions.map (·.id)
      let orphaned_sessions := (dictKeys st).filter (fun k => ¬ k ∈ active_session_ids)
      let st1 : MountDict := st.filter (fun p => p.1 ∈ active_session_ids)
      let st2 := active_sessions.foldl reconcileStep st1
      (st2, .ok active_sessions.length st2.length orphaned_sessions.length
              active_sessions.length)

/-!
## `authenticate` — src/services/veeam_api.py lines 44-120
-/

/-- The observable outcome of the token POST: a response (status code,
whether the body parsed as JSON, and the parsed fields read by the code),
or one of the raised `requests` exception classes the function's
`except` clauses distinguish. -/
inductive AuthInput
  | response (status : Nat) (jsonOk : Bool) (access_token : Option String)
      (error_description : Option String)
  | connectionError (msg : String)
  | timeoutError
  | otherRequestError (msg : String)
deriving DecidableEq, Repr

/-- `authenticate` (lines 44-120).  `.ok b` is a normal return of `b`;
`.error m` is a raised `VeeamAPIError m`.  A JSON-decode failure is a
`RequestException` (requests ≥ 2.27) and so lands in the handler at
lines 118-120; `raise_for_status` turns any remaining 4xx/5xx status
into the same handler. -/
def authenticate : AuthInput → Except String Bool
  | .connectionError _ =>
      .error "Connection failed: Cannot reach Veeam server"
  | .timeoutError =>
      .error "Authentication failed: Request timeout"
  | .otherRequestError m =>
      .error ("Authentication failed: " ++ m)
  | .response status jsonOk access_token error_description =>
      if status == 400 then
        if jsonOk then
          .error ("Authentication failed: " ++ error_description.getD "Invalid credentials")
        else
          .error "Authentication failed: Invalid credentials or server configuration"
      else if status == 401 then
        .error "Authentication failed: Invalid username or password"
      else if status == 403 then
        .error "Authentication failed: Access denied - check user permissions"
      else if status == 404 then
        .error "Authentication failed: OAuth2 endpoint not found - check server URL"
      else if 400 ≤ status ∧ status < 600 then
        .error ("Authentication failed: HTTP " ++ toString status)
      else if !jsonOk then
        .error "Authentication failed: invalid JSON in response"
      else if pyTruthy access_token then
        .ok true
      else
        .error "Authentication failed: No access token received"

end VeeamAPI

/-!
## The mount endpoint — src/routes/veeam_routes.py lines 233-299

The database row is a `BackupRecord`; the ORM bookkeeping after a
successful mount (setting `backup.mount_point`/`status`, `db.session.commit`)
is outside the claims and not modelled.
-/

/-- The columns of the `VeeamBackup` row that the endpoint reads. -/
structure BackupRecord where
  backup_id : String
  os_type : String
  status : String
deriving DecidableEq, Repr

/-- The three JSON responses of the endpoint: success (200), the
already-mounted 400, and the 500 produced when a `VeeamAPIError`
reaches the handler at lines 294-296. -/
inductive MountResponse
  | ok (mount_point : String) (mount_type : String) (os_type : String)
  | alreadyMounted
  | mountFailed (msg : String)
deriving DecidableEq, Repr

/-- Result of the endpoint: the tracking dictionary after the call, the
JSON response, and the trace (client-method markers followed by the
endpoints those methods touched). -/
structure RouteRes where
  state : MountDict
  response : MountResponse
  trace : List CallEvent
deriving Repr

namespace Routes

open VeeamAPI in
/-- `mount_backup` (the route, lines 233-299).  For a Windows backup it
tries `mount_windows_backup_flr` and falls back to the client's
`mount_backup` on `VeeamAPIError`; otherwise it calls the client's
`mount_backup` directly.  `session_id = mount_session.get('id')`
(line 274): the FLR response may carry an `'id'` key, but the dict
returned by the client's `mount_backup` has only `'session_id'`, so on
that path the lookup yields `None` and the mount point falls back to
`/tmp/veeam_mounts/{backup_id}` (line 277). -/
def mount_backup (st : MountDict) (o : Oracle) (b : BackupRecord) : RouteRes :=
  if b.status == "mounted" then
    ⟨st, .alreadyMounted, []⟩
  else if b.os_type == "windows" then
    let f := VeeamAPI.mount_windows_backup_flr st o b.backup_id
    match f.result with
    | .ok body =>
        let mount_point :=
          if pyTruthy body.id then body.id.getD ""
          else "/tmp/veeam_mounts/" ++ b.backup_id
        ⟨f.state, .ok mount_point "FLR" b.os_type,
         CallEvent.callMountWindowsBackupFlr :: f.trace⟩
    | .error _ =>
        let d := VeeamAPI.mount_backup f.state o b.backup_id
        match d.result with
        | .ok _ =>
            ⟨d.state, .ok ("/tmp/veeam_mounts/" ++ b.backup_id) "DataIntegration" b.os_type,
             CallEvent.callMountWindowsBackupFlr :: f.trace
               ++ CallEvent.callMountBackupDI :: d.trace⟩
        | .error e2 =>
            ⟨d.state, .mountFailed ("Mount failed: " ++ e2),
             CallEvent.callMountWindowsBackupFlr :: f.trace
               ++ CallEvent.callMountBackupDI :: d.trace⟩
  else
    let d := VeeamAPI.mount_backup st o b.backup_id
    match d.result with
    | .ok _ =>
        ⟨d.state, .ok ("/tmp/veeam_mounts/" ++ b.backup_id) "DataIntegration" b.os_type,
         CallEvent.callMountBackupDI :: d.trace⟩
    | .error e =>
        ⟨d.state, .mountFailed ("Mount failed: " ++ e),
         CallEvent.callMountBackupDI :: d.trace⟩

end Routes

/-!
## Association-list (Python dict) lemmas
-/

theorem dictContains_iff_mem_keys (d : MountDict) (k : String) :
    dictContains d k = true ↔ k ∈ dictKeys d := by
  simp [dictContains, dictKeys, List.any_eq_true, List.mem_map, beq_iff_eq]

theorem dictContains_eq_isSome (d : MountDict) (k : String) :
    dictContains d k = (dictLookup d k).isSome := by
  induction d with
  | nil => rfl
  | cons p d ih =>
    by_cases h : p.1 = k
    · simp [dictContains, dictLookup, List.find?, h]
    · have hb : (p.1 == k) = false := beq_eq_false_iff_ne.mpr h
      simp only [dictContains, dictLookup, List.any_cons, List.find?, hb, Bool.false_or]
      exact ih

theorem dictLookup_map_update (d : MountDict) (k : String) (v : MountInfo)
    (h : dictContains d k = true) :
    dictLookup (d.map (fun p => if p.1 == k then (k, v) else p)) k = some v := by
  induction d with
  | nil => simp [dictContains] at h
  | cons p d ih =>
    by_cases hp : p.1 = k
    · simp [dictLookup, List.find?, hp]
    · have hb : (p.1 == k) = false := beq_eq_false_iff_ne.mpr hp
      have h' : dictContains d k = true := by
        simpa [dictContains, List.any_cons, hb] using h
      simpa [dictLookup, List.find?, hb] using ih h'

theorem dictLookup_append_single (d : MountDict) (k : String) (v : MountInfo)
    (h : dictContains d k = false) :
    dictLookup (d ++ [(k, v)]) k = some v := by
  induction d with
  | nil => simp [dictLookup, List.find?]
  | cons p d ih =>
    have hb : (p.1 == k) = false := by
      by_contra hc
      simp only [Bool.not_eq_false] at hc
      simp [dictContains, List.any_cons, hc] at h
    have h' : dictContains d k = false := by
      simpa [dictContains, List.any_cons, hb] using h
    simpa [dictLookup, List.find?, hb] using ih h'

theorem dictLookup_insert_self (d : MountDict) (k : String) (v : MountInfo) :
    dictLookup (dictInsert d k v) k = some v := by
  unfold dictInsert
  by_cases h : dictContains d k = true
  · simpa [h] using dictLookup_map_update d k v h
  · have h' : dictContains d k = false := by simpa using h
    simpa [h'] using dictLookup_append_single d k v h'

theorem dictContains_erase (d : MountDict) (k : String) :
    dictContains (dictErase d k) k = false := by
  induction d with
  | nil => rfl
  | cons p d ih =>
    simp only [dictErase] at ih ⊢
    by_cases h : p.1 = k
    · have hb : (p.1 != k) = false := by simp [bne, h]
      simp only [List.filter_cons, hb, if_false, Bool.false_eq_true]
      exact ih
    · have hb : (p.1 != k) = true := by simp [bne, h]
      have hb2 : (p.1 == k) = false := beq_eq_false_iff_ne.mpr h
      simp only [List.filter_cons, hb, if_true]
      simp only [dictContains, List.any_cons, hb2, Bool.false_or]
      exact ih

theorem keys_map_update (d : MountDict) (k : String) (g : String × MountInfo → MountInfo) :
    dictKeys (d.map (fun p => if p.1 == k then (p.1, g p) else p)) = dictKeys d := by
  induction d with
  | nil => rfl
  | cons p d ih =>
    have hfst : (if p.1 == k then (p.1, g p) else p).1 = p.1 := by
      by_cases hp : (p.1 == k) = true
      · simp [hp]
      · simp [hp]
    simp only [dictKeys, List.map_cons] at *
    rw [hfst, ih]

theorem mem_keys_reconcileStep (acc : MountDict) (s : SessionInfo) (i : String) :
    i ∈ dictKeys (VeeamAPI.reconcileStep acc s) ↔ i ∈ dictKeys acc ∨ i = s.id := by
  unfold VeeamAPI.reconcileStep
  by_cases h : dictContains acc s.id = true
  · simp only [h, if_true]
    rw [keys_map_update acc s.id (fun p => VeeamAPI.updateFromServer p.2 s)]
    constructor
    · exact fun hm => Or.inl hm
    · rintro (hm | rfl)
      · exact hm
      · exact (dictContains_iff_mem_keys acc s.id).mp h
  · have h' : dictContains acc s.id = false := by simpa using h
    simp [h', dictKeys]

theorem mem_keys_foldl (ss : List SessionInfo) (d : MountDict) (i : String) :
    i ∈ dictKeys (ss.foldl VeeamAPI.reconcileStep d) ↔
      i ∈ dictKeys d ∨ i ∈ ss.map (·.id) := by
  induction ss generalizing d with
  | nil => simp
  | cons s ss ih =>
    simp only [List.foldl_cons, List.map_cons, List.mem_cons]
    rw [ih, mem_keys_reconcileStep]
    tauto

theorem mem_keys_filter_mem (st : MountDict) (ids : List String) (i : String) :
    i ∈ dictKeys (st.filter (fun p => p.1 ∈ ids)) ↔ i ∈ dictKeys st ∧ i ∈ ids := by
  simp only [dictKeys, List.mem_map, List.mem_filter, decide_eq_true_eq]
  constructor
  · rintro ⟨p, ⟨hp, hid⟩, rfl⟩
    exact ⟨⟨p, hp, rfl⟩, hid⟩
  · rintro ⟨⟨p, hp, rfl⟩, hid⟩
    exact ⟨p, ⟨hp, hid⟩, rfl⟩

theorem applyReadiness_id (r : String → Bool) (s : SessionInfo) :
    (VeeamAPI.applyReadiness r s).id = s.id := by
  unfold VeeamAPI.applyReadiness
  split
  · rfl
  · split <;> rfl

theorem sessionIds_eq (r : String → Bool) (flr di : List ServerSession) :
    ((flr.map VeeamAPI.formatFlrSession ++ di.map VeeamAPI.formatDiSession).map
        (VeeamAPI.applyReadiness r)).map (·.id) =
      (flr ++ di).map ServerSession.id := by
  simp only [List.map_append, List.map_map]
  have h1 : ((fun x : SessionInfo => x.id) ∘ VeeamAPI.applyReadiness r ∘
      VeeamAPI.formatFlrSession) = ServerSession.id :=
    funext fun s => applyReadiness_id r (VeeamAPI.formatFlrSession s)
  have h2 : ((fun x : SessionInfo => x.id) ∘ VeeamAPI.applyReadiness r ∘
      VeeamAPI.formatDiSession) = ServerSession.id :=
    funext fun s => applyReadiness_id r (VeeamAPI.formatDiSession s)
  rw [h1, h2]

/-!
## Claim theorems
-/

/-- C7, counterexample.  The restore point `{name: 'debian', platform:
'Windows'}` carries a (case-insensitive) Windows indicator in its
`platform` field and a Linux indicator in its `name`, yet
`identify_os_type` classifies it `'linux'`: the Linux-indicator scan of
the name text runs before the `platform` field is ever consulted, so the
claimed "every Windows indicator checked before any Linux indicator,
hence both ⟹ 'windows'" fails once the `platform` field is counted among
the matched fields. -/
theorem identify_os_type_platform_windows_loses :
    identify_os_type ⟨"debian", "Windows", "", ""⟩ = "linux" ∧
    strContains (pyLower "Windows") "windows" = true ∧
    hasLinuxIndicator (allText ⟨"debian", "Windows", "", ""⟩) = true ∧
    hasWindowsIndicator (allText ⟨"debian", "Windows", "", ""⟩) = false := by
  decide

/-- C7, amended.  `identify_os_type` returns only `'windows'`, `'linux'`
or `'unknown'`; over the combined `name`/`vmName`/`backup_object_name`
text the Windows indicators are checked before the Linux indicators, so
that text containing indicators of both systems yields `'windows'`; the
`platform` field is consulted only when neither indicator list matches
that text (Windows before Linux there as well). -/
theorem identify_os_type_priority (rp : RestorePointInfo) :
    (identify_os_type rp = "windows" ∨ identify_os_type rp = "linux" ∨
       identify_os_type rp = "unknown") ∧
    (hasWindowsIndicator (allText rp) = true → identify_os_type rp = "windows") ∧
    (hasWindowsIndicator (allText rp) = false → hasLinuxIndicator (allText rp) = true →
       identify_os_type rp = "linux") := by
  refine ⟨?_, ?_, ?_⟩
  · simp only [identify_os_type]
    split_ifs <;> simp
  · intro h
    simp [identify_os_type, h]
  · intro h1 h2
    simp [identify_os_type, h1, h2]

theorem identify_os_type_priority_witness :
    identify_os_type ⟨"windows ubuntu vm", "", "", ""⟩ = "windows" ∧
    identify_os_type ⟨"debian box", "", "", ""⟩ = "linux" :=
  ⟨(identify_os_type_priority ⟨"windows ubuntu vm", "", "", ""⟩).2.1 (by decide),
   (identify_os_type_priority ⟨"debian box", "", "", ""⟩).2.2 (by decide) (by decide)⟩

/-- C6.  `process_ml_task` raises the `Unsupported ML task type` error
exactly for task types outside the five processor keys
`classification`, `regression`, `clustering`, `anomaly_detection`,
`feature_extraction`; for the five supported types it dispatches to the
processor and never produces that error (any failure there is the
distinct wrapped `ML processing failed: ...` error). -/
theorem process_ml_task_types (procs : String → Except String TaskOutcome)
    (task_type : String) (target_column : Option String) :
    (process_ml_task procs task_type target_column =
        Except.error (MLError.unsupported task_type) ↔
      ¬ task_type ∈ supportedTaskTypes) ∧
    supportedTaskTypes = ["classification", "regression", "clustering",
      "anomaly_detection", "feature_extraction"] := by
  refine ⟨?_, rfl⟩
  unfold process_ml_task
  by_cases h : task_type ∈ supportedTaskTypes
  · simp only [h, not_true, if_false]
    cases hb : mlTaskBody procs task_type target_column <;> simp [hb, h]
  · simp [h]

/-- The success predicate for `authenticate`: a response whose status is
not turned into an error (no 4xx/5xx) whose body parses as JSON and
carries a truthy `access_token`. -/
def authSuccess : VeeamAPI.AuthInput → Bool
  | .response status jsonOk access_token _ =>
      if 400 ≤ status ∧ status < 600 then false
      else jsonOk && pyTruthy access_token
  | _ => false

/-- C10.  `authenticate` never returns `False`: any returned boolean is
`True` (first conjunct), it succeeds exactly on a non-error-status JSON
response containing an access token (second and third conjuncts), and in
every other case — error statuses 400/401/403/404 and any other
4xx/5xx, missing or empty token, connection error, timeout, or other
request error — it raises `VeeamAPIError` (`isOk = false` means the
result is an `.error`). -/
theorem authenticate_never_false (inp : VeeamAPI.AuthInput) :
    ((VeeamAPI.authenticate inp).toOption.getD true = true) ∧
    ((VeeamAPI.authenticate inp).isOk = authSuccess inp) ∧
    (VeeamAPI.authenticate inp = Except.ok true ↔ authSuccess inp = true) := by
  rcases inp with ⟨s, j, t, ed⟩ | m | _ | m
  case response =>
    simp only [VeeamAPI.authenticate, authSuccess]
    split_ifs <;>
      simp_all [Except.toOption, Except.isOk, Except.toBool, pyTruthy]
  all_goals
    simp [VeeamAPI.authenticate, authSuccess, Except.toOption, Except.isOk, Except.toBool]

/-- Concrete fixture: a server session list entry for witnesses. -/
def wServerSession : ServerSession :=
  { id := "s1", type := some "FileLevelRestore", state := some "Working",
    creationTime := none, backupId := some "b1", restorePointId := some "rp1" }

/-- Concrete fixture: a tracked FLR mount entry for witnesses. -/
def wInfoFLR : MountInfo :=
  { backup_id := some "b1", restore_point_id := none,
    mount_point := "\\\\172.21.234.6\\VeeamFLR\\unknown_s1",
    folder_name := some "unknown_s1", state := none, mount_type := "FLR",
    session_info := none }

/-- Concrete fixture: an oracle with a given sessions-fetch outcome. -/
def wOracle (f : FetchResult) : Oracle :=
  { sessionsFetch := f, flrReady := fun _ => false,
    restorePoints := .reqError "unreachable", flrCreate := .reqError "unreachable",
    flrUnmountOk := true, diUnpublishOk := false }

/-- C3.  When fetching the server's live session list succeeds, the keys
of the local tracking dictionary after `reconcile_mount_state` are
exactly the session ids of the server's list: orphaned local entries are
removed and unseen server sessions are added. -/
theorem reconcile_keys_match_server (st : MountDict) (o : Oracle)
    (flr di : List ServerSession) (h : o.sessionsFetch = FetchResult.ok flr di)
    (i : String) :
    (i ∈ dictKeys (VeeamAPI.reconcile_mount_state st o).1 ↔
      i ∈ (flr ++ di).map ServerSession.id) := by
  unfold VeeamAPI.reconcile_mount_state
  rw [h]
  simp only [VeeamAPI.get_active_sessions]
  rw [mem_keys_foldl, mem_keys_filter_mem, sessionIds_eq]
  tauto

theorem reconcile_keys_match_server_witness :
    ("s1" ∈ dictKeys (VeeamAPI.reconcile_mount_state []
        (wOracle (FetchResult.ok [wServerSession] []))).1 ↔
      "s1" ∈ ([wServerSession] ++ []).map ServerSession.id) :=
  reconcile_keys_match_server [] (wOracle (FetchResult.ok [wServerSession] []))
    [wServerSession] [] rfl "s1"

/-- C5.  For a session id present in local tracking, `unmount_backup`
returns the remote unmount outcome (FLR or Data Integration endpoint,
picked by the entry's mount type); the entry is removed from tracking
exactly when that call succeeds, and on failure the dictionary is
unchanged and the function returns `False`. -/
theorem unmount_tracked_removes_iff (st : MountDict) (o : Oracle) (sid : String)
    (info : MountInfo) (h : dictLookup st sid = some info) :
    ((VeeamAPI.unmount_backup st o sid).success =
        (if info.mount_type == "FLR" then o.flrUnmountOk else o.diUnpublishOk)) ∧
    (dictContains (VeeamAPI.unmount_backup st o sid).state sid =
        !(if info.mount_type == "FLR" then o.flrUnmountOk else o.diUnpublishOk)) ∧
    ((if info.mount_type == "FLR" then o.flrUnmountOk else o.diUnpublishOk) = false →
       (VeeamAPI.unmount_backup st o sid).state = st ∧
       (VeeamAPI.unmount_backup st o sid).success = false) := by
  unfold VeeamAPI.unmount_backup
  rw [h]
  have hc : dictContains st sid = true := by
    rw [dictContains_eq_isSome, h]
    rfl
  by_cases hm : (info.mount_type == "FLR") = true
  · simp only [hm, if_true]
    cases hf : o.flrUnmountOk
    · simp [hf, hc]
    · simp [hf, dictContains_erase]
  · have hm' : (info.mount_type == "FLR") = false := by simpa using hm
    simp only [hm', if_false]
    cases hd : o.diUnpublishOk
    · simp [hd, hc]
    · simp [hd, dictContains_erase]

theorem unmount_tracked_removes_iff_witness :
    (VeeamAPI.unmount_backup [("s1", wInfoFLR)] (wOracle (FetchResult.ok [] [])) "s1").success =
      (if wInfoFLR.mount_type == "FLR" then (wOracle (FetchResult.ok [] [])).flrUnmountOk
       else (wOracle (FetchResult.ok [] [])).diUnpublishOk) :=
  (unmount_tracked_removes_iff [("s1", wInfoFLR)] (wOracle (FetchResult.ok [] []))
    "s1" wInfoFLR rfl).1

/-- C8.  Session reconciliation is best-effort: a failed HTTP request in
`get_active_sessions` (a caught `RequestException`) yields the empty
list instead of an exception, and an exception reaching
`reconcile_mount_state`'s body (here: a fetch exception that is not a
`RequestException`, the model's only exception source) is caught and
returned as the `{'error': ...}` dict with the local state untouched. -/
theorem session_reconciliation_best_effort (ready : String → Bool) (st : MountDict)
    (o : Oracle) (m : String) (h : o.sessionsFetch = FetchResult.otherError m) :
    VeeamAPI.get_active_sessions ready (FetchResult.reqError m) = Except.ok [] ∧
    VeeamAPI.reconcile_mount_state st o = (st, VeeamAPI.ReconcileResult.err m) := by
  refine ⟨rfl, ?_⟩
  unfold VeeamAPI.reconcile_mount_state
  rw [h]
  rfl

theorem session_reconciliation_best_effort_witness :
    VeeamAPI.get_active_sessions (fun _ => false) (FetchResult.reqError "conn reset") =
      Except.ok [] ∧
    VeeamAPI.reconcile_mount_state [("s1", wInfoFLR)]
        (wOracle (FetchResult.otherError "conn reset")) =
      ([("s1", wInfoFLR)], VeeamAPI.ReconcileResult.err "conn reset") :=
  session_reconciliation_best_effort (fun _ => false) [("s1", wInfoFLR)]
    (wOracle (FetchResult.otherError "conn reset")) "conn reset" rfl

/-- C9.  When the sessions request fails, `get_active_sessions` returns
the empty list, and the following `reconcile_mount_state` therefore
treats every locally tracked session as orphaned: the tracking
dictionary ends empty, and the call reports success (a normal result
dict with `orphaned_removed` equal to the number of previously tracked
sessions, not an error). -/
theorem reconcile_fetch_failure_clears_tracking (st : MountDict) (o : Oracle) (m : String)
    (h : o.sessionsFetch = FetchResult.reqError m) :
    VeeamAPI.get_active_sessions o.flrReady o.sessionsFetch = Except.ok [] ∧
    VeeamAPI.reconcile_mount_state st o =
      ([], VeeamAPI.ReconcileResult.ok 0 0 (dictKeys st).length 0) := by
  rw [h]
  refine ⟨rfl, ?_⟩
  unfold VeeamAPI.reconcile_mount_state
  rw [h]
  simp [VeeamAPI.get_active_sessions, dictKeys, List.filter]

theorem reconcile_fetch_failure_clears_tracking_witness :
    VeeamAPI.get_active_sessions (wOracle (FetchResult.reqError "timeout")).flrReady
        (wOracle (FetchResult.reqError "timeout")).sessionsFetch = Except.ok [] ∧
    VeeamAPI.reconcile_mount_state [("s1", wInfoFLR)]
        (wOracle (FetchResult.reqError "timeout")) =
      ([], VeeamAPI.ReconcileResult.ok 0 0 (dictKeys [("s1", wInfoFLR)]).length 0) :=
  reconcile_fetch_failure_clears_tracking [("s1", wInfoFLR)]
    (wOracle (FetchResult.reqError "timeout")) "timeout" rfl

/-- Concrete fixture: a successful FLR-creation response body. -/
def wFlrBody : FlrSessionResponse :=
  { sessionId := some "sess12345678", id := none,
    sourceProperties := some { machineName := some "vm01" } }

/-- Concrete fixture: an oracle under which a new FLR session is created. -/
def wFlrOracle : Oracle :=
  { sessionsFetch := .ok [] [], flrReady := fun _ => false,
    restorePoints := .ok 200 [{ id := some "rp1" }],
    flrCreate := .ok 201 wFlrBody,
    flrUnmountOk := true, diUnpublishOk := false }

/-- C4.  Whenever a new FLR session is created with a (truthy) session id
in the response — by `mount_windows_backup_flr`, by
`create_flr_session_for_restore_point`, or by `mount_backup`'s
new-session branch — local tracking records it under that id with mount
point `\\172.21.234.6\VeeamFLR\{machineName}_{sid[:8]}`, where
`machineName` comes from the response's `sourceProperties` and defaults
to `unknown` when absent (last conjunct). -/
theorem flr_session_unc_tracking (st : MountDict) (o : Oracle) :
    (∀ rp_id status body sid,
       o.flrCreate = HttpResult.ok status body →
       ¬(400 ≤ status ∧ status < 600) →
       pyStrOr body.sessionId body.id = some sid → ¬ sid = "" →
       (dictLookup (VeeamAPI.mount_windows_backup_flr st o rp_id).state sid).map
          MountInfo.mount_point =
         some ("\\\\172.21.234.6\\VeeamFLR\\" ++ VeeamAPI.machineNameOf body ++ "_" ++
           sid.take 8)) ∧
    (∀ rp_id body sid,
       o.flrCreate = HttpResult.ok 201 body →
       pyStrOr body.sessionId body.id = some sid → ¬ sid = "" →
       (dictLookup (VeeamAPI.create_flr_session_for_restore_point st o rp_id).state sid).map
          MountInfo.mount_point =
         some ("\\\\172.21.234.6\\VeeamFLR\\" ++ VeeamAPI.machineNameOf body ++ "_" ++
           sid.take 8)) ∧
    (∀ backup_id sessions rp_id rps body sid,
       VeeamAPI.get_active_sessions o.flrReady o.sessionsFetch = Except.ok sessions →
       VeeamAPI.findExistingFlr sessions backup_id = none →
       VeeamAPI.get_restore_points o = Except.ok rps →
       rps.head? = some { id := some rp_id } → ¬ rp_id = "" →
       o.flrCreate = HttpResult.ok 201 body →
       pyStrOr body.sessionId body.id = some sid → ¬ sid = "" →
       (dictLookup (VeeamAPI.mount_backup st o backup_id).state sid).map
          MountInfo.mount_point =
         some ("\\\\172.21.234.6\\VeeamFLR\\" ++ VeeamAPI.machineNameOf body ++ "_" ++
           sid.take 8)) ∧
    (∀ r : FlrSessionResponse, r.sourceProperties = none →
       VeeamAPI.machineNameOf r = "unknown") := by
  refine ⟨?_, ?_, ?_, ?_⟩
  · intro rp_id status body sid h1 h2 h3 h4
    have h4' : (sid == "") = false := beq_eq_false_iff_ne.mpr h4
    unfold VeeamAPI.mount_windows_backup_flr
    rw [h1]
    dsimp only []
    rw [if_neg h2, h3]
    dsimp only []
    rw [if_neg (by simp [h4'])]
    rw [dictLookup_insert_self]
    simp [VeeamAPI.flrMountInfo, VeeamAPI.uncPathOf, VeeamAPI.folderNameOf, String.append_assoc]
  · intro rp_id body sid h1 h3 h4
    have h4' : (sid == "") = false := beq_eq_false_iff_ne.mpr h4
    unfold VeeamAPI.create_flr_session_for_restore_point
    rw [h1]
    dsimp only []
    rw [if_pos (by decide), h3]
    dsimp only []
    rw [if_neg (by simp [h4'])]
    rw [dictLookup_insert_self]
    simp [VeeamAPI.flrMountInfo, VeeamAPI.uncPathOf, VeeamAPI.folderNameOf, String.append_assoc]
  · intro backup_id sessions rp_id rps body sid h1 h2 h3 h4 h5 h6 h7 h8
    have h8' : (sid == "") = false := beq_eq_false_iff_ne.mpr h8
    have h5' : pyTruthy (some rp_id) = true := by simp [pyTruthy, h5]
    have hcfs : VeeamAPI.create_flr_session_for_restore_point st o rp_id =
        ⟨dictInsert st sid (VeeamAPI.flrMountInfo rp_id body sid), Except.ok body,
         [CallEvent.epFlrCreate]⟩ := by
      unfold VeeamAPI.create_flr_session_for_restore_point
      rw [h6]
      dsimp only []
      rw [if_pos (by decide), h7]
      dsimp only []
      rw [if_neg (by simp [h8'])]
    unfold VeeamAPI.mount_backup VeeamAPI.mount_backup_body
    rw [h1]
    dsimp only []
    rw [h2]
    dsimp only []
    rw [h3]
    dsimp only []
    rw [h4]
    dsimp only []
    rw [h5']
    dsimp only []
    rw [hcfs]
    dsimp only []
    rw [h7]
    dsimp only []
    rw [if_neg (by simp [h8'])]
    dsimp only []
    rw [dictLookup_insert_self]
    simp [VeeamAPI.diNewMountInfo, VeeamAPI.uncPathOf, VeeamAPI.folderNameOf, String.append_assoc]
  · intro r hr
    unfold VeeamAPI.machineNameOf
    rw [hr]

theorem flr_session_unc_tracking_witness :
    (dictLookup (VeeamAPI.mount_windows_backup_flr [] wFlrOracle "rp1").state
        "sess12345678").map MountInfo.mount_point =
      some ("\\\\172.21.234.6\\VeeamFLR\\" ++ VeeamAPI.machineNameOf wFlrBody ++ "_" ++
        String.take "sess12345678" 8) ∧
    (dictLookup (VeeamAPI.create_flr_session_for_restore_point [] wFlrOracle "rp1").state
        "sess12345678").map MountInfo.mount_point =
      some ("\\\\172.21.234.6\\VeeamFLR\\" ++ VeeamAPI.machineNameOf wFlrBody ++ "_" ++
        String.take "sess12345678" 8) ∧
    (dictLookup (VeeamAPI.mount_backup [] wFlrOracle "b1").state
        "sess12345678").map MountInfo.mount_point =
      some ("\\\\172.21.234.6\\VeeamFLR\\" ++ VeeamAPI.machineNameOf wFlrBody ++ "_" ++
        String.take "sess12345678" 8) ∧
    VeeamAPI.machineNameOf { sessionId := none, id := none, sourceProperties := none } =
      "unknown" :=
  ⟨(flr_session_unc_tracking [] wFlrOracle).1 "rp1" 201 wFlrBody "sess12345678"
     rfl (by decide) rfl (by decide),
   (flr_session_unc_tracking [] wFlrOracle).2.1 "rp1" wFlrBody "sess12345678"
     rfl rfl (by decide),
   (flr_session_unc_tracking [] wFlrOracle).2.2.1 "b1" [] "rp1" [{ id := some "rp1" }]
     wFlrBody "sess12345678" rfl rfl rfl rfl (by decide) rfl rfl (by decide),
   (flr_session_unc_tracking [] wFlrOracle).2.2.2
     { sessionId := none, id := none, sourceProperties := none } rfl⟩

/-- The FLR-creating client methods touch exactly the FLR-create
endpoint. -/
theorem cfs_trace (st : MountDict) (o : Oracle) (rp : String) :
    (VeeamAPI.create_flr_session_for_restore_point st o rp).trace =
      [CallEvent.epFlrCreate] := by
  unfold VeeamAPI.create_flr_session_for_restore_point
  repeat' split
  all_goals rfl

theorem mwbf_trace (st : MountDict) (o : Oracle) (rp : String) :
    (VeeamAPI.mount_windows_backup_flr st o rp).trace = [CallEvent.epFlrCreate] := by
  unfold VeeamAPI.mount_windows_backup_flr
  repeat' split
  all_goals rfl

theorem mb_trace_eq (st : MountDict) (o : Oracle) (bid : String) :
    (VeeamAPI.mount_backup st o bid).trace =
      (VeeamAPI.mount_backup_body st o bid).trace := by
  unfold VeeamAPI.mount_backup
  cases h : (VeeamAPI.mount_backup_body st o bid).result <;> simp [h]

/-- The client's `mount_backup` touches only the sessions, restore-point
and FLR-create endpoints (in particular it emits no method markers). -/
theorem mbb_no_call_events (st : MountDict) (o : Oracle) (bid : String) (e : CallEvent)
    (he : e ∈ (VeeamAPI.mount_backup_body st o bid).trace) :
    e = CallEvent.epSessions ∨ e = CallEvent.epRestorePoints ∨
      e = CallEvent.epFlrCreate := by
  unfold VeeamAPI.mount_backup_body at he
  repeat' split at he
  all_goals try
    simp only [cfs_trace, List.mem_cons, List.mem_append, List.mem_singleton,
      List.not_mem_nil, or_false] at he
  all_goals try tauto
  all_goals repeat' split at he
  all_goals
    simp only [cfs_trace, List.mem_cons, List.mem_append, List.mem_singleton,
      List.not_mem_nil, or_false] at he
  all_goals tauto

/-- Whether the endpoint's JSON response is the 200 success shape. -/
def isOkResponse : MountResponse → Bool
  | .ok _ _ _ => true
  | _ => false

/-- C1, counterexample.  For a backup whose OS type is `'linux'`, the
mount endpoint does call the client's `mount_backup` directly — but that
method itself mounts via the FLR machinery: under an oracle with no
existing session and one restore point, the request POSTs to the
FLR-create endpoint and the resulting tracked session has mount type
`'FLR'`, so "FLR is never attempted" for non-Windows backups is false
(only the wrapper method `mount_windows_backup_flr` is never called). -/
theorem mount_linux_attempts_flr :
    (⟨"b1", "linux", "idle"⟩ : BackupRecord).os_type = "linux" ∧
    CallEvent.epFlrCreate ∈
      (Routes.mount_backup [] wFlrOracle ⟨"b1", "linux", "idle"⟩).trace ∧
    (dictLookup (Routes.mount_backup [] wFlrOracle ⟨"b1", "linux", "idle"⟩).state
        "sess12345678").map MountInfo.mount_type = some "FLR" := by
  decide

/-- C1, amended.  At the method level the endpoint dispatches as claimed:
for a Windows backup the FLR wrapper `mount_windows_backup_flr` is
attempted first, and for any other OS type the client's `mount_backup`
(reported as the Data Integration mechanism) is used directly and
`mount_windows_backup_flr` is never invoked — though `mount_backup`
itself creates FLR sessions, so FLR mounting can still occur on that
path (see the counterexample). -/
theorem mount_dispatch_by_os (st : MountDict) (o : Oracle) (b : BackupRecord)
    (hs : b.status ≠ "mounted") :
    (b.os_type = "windows" →
       (Routes.mount_backup st o b).trace.head? =
         some CallEvent.callMountWindowsBackupFlr) ∧
    (b.os_type ≠ "windows" →
       (Routes.mount_backup st o b).trace.head? = some CallEvent.callMountBackupDI ∧
       CallEvent.callMountWindowsBackupFlr ∉ (Routes.mount_backup st o b).trace) := by
  have hs' : (b.status == "mounted") = false := beq_eq_false_iff_ne.mpr hs
  constructor
  · intro hw
    unfold Routes.mount_backup
    rw [if_neg (by simp [hs']), if_pos (by simp [hw])]
    dsimp only []
    cases hf : (VeeamAPI.mount_windows_backup_flr st o b.backup_id).result
    · dsimp only []
      cases hd : (VeeamAPI.mount_backup
          (VeeamAPI.mount_windows_backup_flr st o b.backup_id).state o b.backup_id).result
      · rfl
      · rfl
    · rfl
  · intro hnw
    have hnw' : (b.os_type == "windows") = false := beq_eq_false_iff_ne.mpr hnw
    unfold Routes.mount_backup
    rw [if_neg (by simp [hs']), if_neg (by simp [hnw'])]
    dsimp only []
    cases hd : (VeeamAPI.mount_backup st o b.backup_id).result
    all_goals dsimp only []
    all_goals
      refine ⟨rfl, ?_⟩
      intro hmem
      rw [List.mem_cons] at hmem
      rcases hmem with h | h
      · exact absurd h (by decide)
      · rw [mb_trace_eq] at h
        rcases mbb_no_call_events st o b.backup_id _ h with h1 | h1 | h1 <;>
          exact absurd h1 (by decide)

theorem mount_dispatch_by_os_witness :
    (Routes.mount_backup [] wFlrOracle ⟨"b1", "windows", "idle"⟩).trace.head? =
      some CallEvent.callMountWindowsBackupFlr ∧
    ((Routes.mount_backup [] wFlrOracle ⟨"b2", "linux", "idle"⟩).trace.head? =
       some CallEvent.callMountBackupDI ∧
     CallEvent.callMountWindowsBackupFlr ∉
       (Routes.mount_backup [] wFlrOracle ⟨"b2", "linux", "idle"⟩).trace) :=
  ⟨(mount_dispatch_by_os [] wFlrOracle ⟨"b1", "windows", "idle"⟩ (by decide)).1 rfl,
   (mount_dispatch_by_os [] wFlrOracle ⟨"b2", "linux", "idle"⟩ (by decide)).2 (by decide)⟩

/-- C2.  For a Windows backup whose mount is not already recorded: the
client's `mount_backup` (the Data Integration fallback) is invoked
exactly when the FLR attempt raised, and the endpoint's response is
successful exactly when the FLR attempt or the fallback succeeded — so
the request fails only if both mechanisms fail.  For an unmount of a
session id missing from local tracking: the FLR unmount endpoint is
tried first, the Data Integration unmount endpoint is tried exactly when
the FLR unmount failed, and the call succeeds when either does. -/
theorem mount_fallback_mechanisms (st : MountDict) (o : Oracle) (b : BackupRecord)
    (sid : String) (hw : b.os_type = "windows") (hs : b.status ≠ "mounted")
    (hu : dictLookup st sid = none) :
    ((CallEvent.callMountBackupDI ∈ (Routes.mount_backup st o b).trace) ↔
       (VeeamAPI.mount_windows_backup_flr st o b.backup_id).result.isOk = false) ∧
    (isOkResponse (Routes.mount_backup st o b).response =
       ((VeeamAPI.mount_windows_backup_flr st o b.backup_id).result.isOk ||
        (VeeamAPI.mount_backup (VeeamAPI.mount_windows_backup_flr st o b.backup_id).state
            o b.backup_id).result.isOk)) ∧
    ((VeeamAPI.unmount_backup st o sid).success = (o.flrUnmountOk || o.diUnpublishOk)) ∧
    ((VeeamAPI.unmount_backup st o sid).trace =
       if o.flrUnmountOk then [CallEvent.epFlrUnmount]
       else [CallEvent.epFlrUnmount, CallEvent.epDiUnpublish]) := by
  have hs' : (b.status == "mounted") = false := beq_eq_false_iff_ne.mpr hs
  have hroute : ∀ p : RouteRes → Prop, p (Routes.mount_backup st o b) ↔
      p (match (VeeamAPI.mount_windows_backup_flr st o b.backup_id).result with
         | Except.ok body =>
             ⟨(VeeamAPI.mount_windows_backup_flr st o b.backup_id).state,
              .ok (if pyTruthy body.id then body.id.getD ""
                   else "/tmp/veeam_mounts/" ++ b.backup_id) "FLR" b.os_type,
              CallEvent.callMountWindowsBackupFlr ::
                (VeeamAPI.mount_windows_backup_flr st o b.backup_id).trace⟩
         | Except.error _ =>
             match (VeeamAPI.mount_backup
                 (VeeamAPI.mount_windows_backup_flr st o b.backup_id).state o
                 b.backup_id).result with
             | Except.ok _ =>
                 ⟨(VeeamAPI.mount_backup
                     (VeeamAPI.mount_windows_backup_flr st o b.backup_id).state o
                     b.backup_id).state,
                  .ok ("/tmp/veeam_mounts/" ++ b.backup_id) "DataIntegration" b.os_type,
                  CallEvent.callMountWindowsBackupFlr ::
                    (VeeamAPI.mount_windows_backup_flr st o b.backup_id).trace
                     ++ CallEvent.callMountBackupDI ::
                       (VeeamAPI.mount_backup
                         (VeeamAPI.mount_windows_backup_flr st o b.backup_id).state o
                         b.backup_id).trace⟩
             | Except.error e2 =>
                 ⟨(VeeamAPI.mount_backup
                     (VeeamAPI.mount_windows_backup_flr st o b.backup_id).state o
                     b.backup_id).state,
                  .mountFailed ("Mount failed: " ++ e2),
                  CallEvent.callMountWindowsBackupFlr ::
                    (VeeamAPI.mount_windows_backup_flr st o b.backup_id).trace
                     ++ CallEvent.callMountBackupDI ::
                       (VeeamAPI.mount_backup
                         (VeeamAPI.mount_windows_backup_flr st o b.backup_id).state o
                         b.backup_id).trace⟩) := by
    intro p
    unfold Routes.mount_backup
    rw [if_neg (by simp [hs']), if_pos (by simp [hw])]
  refine ⟨?_, ?_, ?_, ?_⟩
  · rw [hroute (fun r => CallEvent.callMountBackupDI ∈ r.trace)]
    cases hf : (VeeamAPI.mount_windows_backup_flr st o b.backup_id).result
    · dsimp only [Except.isOk, Except.toBool]
      cases hd : (VeeamAPI.mount_backup
          (VeeamAPI.mount_windows_backup_flr st o b.backup_id).state o b.backup_id).result
      all_goals simp [mwbf_trace]
    · dsimp only [Except.isOk, Except.toBool]
      simp [mwbf_trace]
  · rw [hroute (fun r => isOkResponse r.response =
       ((VeeamAPI.mount_windows_backup_flr st o b.backup_id).result.isOk ||
        (VeeamAPI.mount_backup (VeeamAPI.mount_windows_backup_flr st o b.backup_id).state
            o b.backup_id).result.isOk))]
    cases hf : (VeeamAPI.mount_windows_backup_flr st o b.backup_id).result
    · cases hd : (VeeamAPI.mount_backup
          (VeeamAPI.mount_windows_backup_flr st o b.backup_id).state o b.backup_id).result
      all_goals simp [isOkResponse, Except.isOk, Except.toBool, hf, hd]
    · simp [isOkResponse, Except.isOk, Except.toBool, hf]
  · unfold VeeamAPI.unmount_backup
    rw [hu]
    dsimp only []
    cases hfu : o.flrUnmountOk <;> simp [hfu]
  · unfold VeeamAPI.unmount_backup
    rw [hu]
    dsimp only []
    cases hfu : o.flrUnmountOk <;> simp [hfu]

theorem mount_fallback_mechanisms_witness :
    ((CallEvent.callMountBackupDI ∈
        (Routes.mount_backup [] wFlrOracle ⟨"b1", "windows", "idle"⟩).trace) ↔
      (VeeamAPI.mount_windows_backup_flr [] wFlrOracle "b1").result.isOk = false) ∧
    ((VeeamAPI.unmount_backup [] wFlrOracle "s9").trace =
      if wFlrOracle.flrUnmountOk then [CallEvent.epFlrUnmount]
      else [CallEvent.epFlrUnmount, CallEvent.epDiUnpublish]) :=
  ⟨(mount_fallback_mechanisms [] wFlrOracle ⟨"b1", "windows", "idle"⟩ "s9"
      rfl (by decide) rfl).1,
   (mount_fallback_mechanisms [] wFlrOracle ⟨"b1", "windows", "idle"⟩ "s9"
      rfl (by decide) rfl).2.2.2⟩
